import Mathlib

/-
Verification development for the Helios console emulator and toolchain
(a 6502-like CPU core in src/cpu.rs + src/isa.rs, a flat 64 KiB memory in
src/memory.rs, and a two-pass assembler in src/compiler.rs).

Shallow embedding conventions:
  * Machine integers are Nat.  `x as u8` is modelled as `x % 256`,
    `x as u16` as `x % 65536`, `wrapping_add`/`wrapping_sub` as addition
    followed by `% 2^w`.  Unchecked `+`/`-` on u16 (which panic on
    overflow under Rust's default debug-profile overflow checks) are
    modelled by returning `none` from `step`/`execute`.
  * Rust strings are modelled as `List Char`; the handful of &str methods
    the assembler uses (trim, starts_with, ends_with, split,
    split_whitespace, to_uppercase, byte-range slicing on ASCII input)
    are re-implemented structurally below so that everything reduces in
    the kernel.
  * `println!` diagnostics of the DBG handler and of the unknown-opcode
    branch are modelled as trace lists (`dbgout`, `unknown`) carried in
    the CPU state; the value/address pairs mirror the formatted output.
  * The CPU core is single threaded (the spec's reference configuration),
    so the Arc<Mutex<…>> around Memory is dropped and Memory is a plain
    field of the CPU state.
-/

namespace Helios

/-! ## Strings as lists of characters (model of Rust &str, ASCII inputs) -/

abbrev Str := List Char

/-- Conversion from a Lean string literal to the `List Char` model. -/
def str (s : String) : Str := s.toList

/-- Model of `str::trim` (ASCII whitespace on the inputs considered). -/
def strTrim (s : Str) : Str :=
  ((s.dropWhile Char.isWhitespace).reverse.dropWhile Char.isWhitespace).reverse

/-- Model of `str::starts_with(c: char)`. -/
def startsWithChar (s : Str) (c : Char) : Bool :=
  match s with
  | [] => false
  | x :: _ => x = c

/-- Model of `str::ends_with(c: char)`. -/
def endsWithChar (s : Str) (c : Char) : Bool :=
  match s.reverse with
  | [] => false
  | x :: _ => x = c

/-- Model of `str::ends_with(pat: &str)`. -/
def endsWithStr (s pat : Str) : Bool :=
  s.reverse.take pat.length = pat.reverse

/-- Model of `str::split(sep)` for a character predicate: splits at every
matching character and keeps empty fragments, exactly like Rust's
`split`. -/
def splitPred (p : Char → Bool) : Str → List Str
  | [] => [[]]
  | x :: xs =>
    if p x then [] :: splitPred p xs
    else
      match splitPred p xs with
      | [] => [[x]]
      | h :: t => (x :: h) :: t

/-- Model of `str::split(c: char)`. -/
def splitOnChar (c : Char) (s : Str) : List Str :=
  splitPred (fun x => x = c) s

/-- Model of `str::split_whitespace`: split on whitespace, drop empty
fragments. -/
def splitWhitespace (s : Str) : List Str :=
  (splitPred Char.isWhitespace s).filter (fun t => t ≠ [])

/-- Model of `str::to_uppercase` (ASCII input). -/
def toUpperStr (s : Str) : Str := s.map Char.toUpper

/-- Model of `source.lines()`: split on newline.  (Rust yields no final
empty line for a trailing newline; the model yields one, which both
passes of the assembler skip, so the behaviours agree.) -/
def linesOf (s : Str) : List Str := splitOnChar '\n' s

/-- Lines paired with 1-based line numbers, modelling
`source.lines().enumerate()` plus the `line_num + 1` adjustment. -/
def numberLines : Nat → List Str → List (Nat × Str)
  | _, [] => []
  | i, l :: ls => (i, l) :: numberLines (i + 1) ls

/-- Decimal rendering of a Nat, modelling `format!("{}", n)` for the
error messages. -/
def natStrAux : Nat → Nat → Str → Str
  | 0, _, acc => acc
  | fuel + 1, n, acc =>
    if n < 10 then Char.ofNat (48 + n) :: acc
    else natStrAux fuel (n / 10) (Char.ofNat (48 + n % 10) :: acc)

def natStr (n : Nat) : Str := natStrAux (n + 1) n []

/-! ## Memory (src/memory.rs) -/

def ROM_START : Nat := 0x0000
def ROM_SIZE : Nat := 0x8000
def DISPLAY_START : Nat := 0xF000
def DISPLAY_SIZE : Nat := 0x0C00
def AUDIO_START : Nat := 0xFC00
def AUDIO_SIZE : Nat := 0x0100
def MEMORY_SIZE : Nat := 0x10000

/-- The 64 KiB store plus the display double buffer.  The `[u8; N]`
arrays are modelled as functions from Nat; `read` truncates the address
to 16 bits (the `address: u16` parameter type) and the value to 8 bits
(the `u8` element type). -/
structure Memory where
  data : Nat → Nat
  display_buffer : Nat → Nat

def Memory.new : Memory :=
  { data := fun _ => 0, display_buffer := fun _ => 0 }

def Memory.read (m : Memory) (address : Nat) : Nat :=
  m.data (address % 65536) % 256

def Memory.write (m : Memory) (address value : Nat) : Memory :=
  let a := address % 65536
  { data := fun i => if i = a then value else m.data i
    display_buffer :=
      if DISPLAY_START ≤ a ∧ a < DISPLAY_START + DISPLAY_SIZE then
        fun i => if i = a - DISPLAY_START then value else m.display_buffer i
      else m.display_buffer }

/-- `load_program` copies `program[i]` to `data[i]` for `i < ROM_SIZE`,
stopping silently at the ROM boundary; it bypasses `write` and therefore
never touches `display_buffer`. -/
def Memory.load_from (m : Memory) (i : Nat) : List Nat → Memory
  | [] => m
  | b :: rest =>
    if i < ROM_SIZE then
      Memory.load_from
        { m with data := fun j => if j = i then b else m.data j } (i + 1) rest
    else m

def Memory.load_program (m : Memory) (program : List Nat) : Memory :=
  Memory.load_from m 0 program

/-- `swap_display_buffer` copies the double buffer back over the display
region of `data`. -/
def Memory.swap_display_buffer (m : Memory) : Memory :=
  { m with
    data := fun i =>
      if DISPLAY_START ≤ i ∧ i < DISPLAY_START + DISPLAY_SIZE then
        m.display_buffer (i - DISPLAY_START)
      else m.data i }

/-! ## CPU state (src/cpu.rs) -/

def FLAG_ZERO : Nat := 0b00000001
def FLAG_NEGATIVE : Nat := 0b00000010
def FLAG_CARRY : Nat := 0b00000100
def FLAG_OVERFLOW : Nat := 0b00001000

/-- CPU registers and state.  `dbgout` records the (value, address) pairs
printed by the DBG handler and `unknown` records the (opcode, address)
pairs printed by the unknown-opcode branch — models of the println!
side effects. -/
structure CPU where
  a : Nat
  x : Nat
  y : Nat
  pc : Nat
  sp : Nat
  status : Nat
  mem : Memory
  cycles : Nat
  halted : Bool
  dbgout : List (Nat × Nat)
  unknown : List (Nat × Nat)

def CPU.new (memory : Memory) : CPU :=
  { a := 0, x := 0, y := 0, pc := 0, sp := 0xFF, status := 0
    mem := memory, cycles := 0, halted := false, dbgout := [], unknown := [] }

/-- `fetch`: read the byte at PC and advance PC with 16-bit wrap. -/
def CPU.fetch (c : CPU) : Nat × CPU :=
  (c.mem.read c.pc, { c with pc := (c.pc + 1) % 65536 })

def CPU.read (c : CPU) (address : Nat) : Nat := c.mem.read address

def CPU.write (c : CPU) (address value : Nat) : CPU :=
  { c with mem := c.mem.write address value }

/-- `push`: store at 0x0100 | SP, then decrement SP with 8-bit wrap. -/
def CPU.push (c : CPU) (value : Nat) : CPU :=
  let c1 := c.write (0x0100 ||| c.sp) value
  { c1 with sp := (c1.sp + 255) % 256 }

/-- `pop`: increment SP with 8-bit wrap, then read at 0x0100 | SP.
Returns the value and the updated state. -/
def CPU.pop (c : CPU) : Nat × CPU :=
  let sp1 := (c.sp + 1) % 256
  (c.mem.read (0x0100 ||| sp1), { c with sp := sp1 })

def CPU.set_flag (st flag : Nat) (value : Bool) : Nat :=
  if value then st ||| flag else st &&& (255 - flag)

def CPU.get_flag (st flag : Nat) : Bool := st &&& flag ≠ 0

/-- Z ← (value == 0); N ← (value & 0x80) != 0, in that order. -/
def CPU.updateZN (st value : Nat) : Nat :=
  CPU.set_flag (CPU.set_flag st FLAG_ZERO (value = 0)) FLAG_NEGATIVE
    (value &&& 0x80 ≠ 0)

/-- Sign value of a byte read as an `i8` (the `as i8` cast). -/
def i8val (b : Nat) : Int := if b < 128 then (b : Int) else (b : Int) - 256

/-- Branch: `pc.wrapping_add(offset as u16)` where offset is sign
extended; equal to (pc + offset) mod 2^16 over Int. -/
def branchTarget (pc off : Nat) : Nat :=
  (((pc : Int) + i8val off) % 65536).toNat

/-! ## Instruction execution (src/isa.rs)

`execute` receives the CPU after the opcode fetch, exactly as in
`CPU::step`.  It returns `none` where the Rust code performs an
unchecked u16 `+`/`-` that overflows (a panic under the default
debug-profile overflow checks): the `cpu.pc - 1` in JSR's return-address
fixup, the `((high << 8) | low) + 1` in RTS, and the `cpu.pc - 1` in the
unknown-opcode diagnostic. -/

def execute (c : CPU) (opcode : Nat) : Option CPU :=
  match opcode with
  | 0xA9 => -- LDA imm
    let (value, c1) := c.fetch
    some { c1 with a := value, status := CPU.updateZN c1.status value }
  | 0xA5 => -- LDA zp
    let (address, c1) := c.fetch
    let v := c1.read address
    some { c1 with a := v, status := CPU.updateZN c1.status v }
  | 0xB5 => -- LDA zp,X
    let (za, c1) := c.fetch
    let address := (za + c1.x) % 256
    let v := c1.read address
    some { c1 with a := v, status := CPU.updateZN c1.status v }
  | 0xAD => -- LDA abs
    let (low, c1) := c.fetch
    let (high, c2) := c1.fetch
    let v := c2.read ((high <<< 8) ||| low)
    some { c2 with a := v, status := CPU.updateZN c2.status v }
  | 0xA2 => -- LDX imm
    let (value, c1) := c.fetch
    some { c1 with x := value, status := CPU.updateZN c1.status value }
  | 0xA0 => -- LDY imm
    let (value, c1) := c.fetch
    some { c1 with y := value, status := CPU.updateZN c1.status value }
  | 0x85 => -- STA zp
    let (address, c1) := c.fetch
    some (c1.write address c1.a)
  | 0x95 => -- STA zp,X
    let (za, c1) := c.fetch
    some (c1.write ((za + c1.x) % 256) c1.a)
  | 0x8D => -- STA abs
    let (low, c1) := c.fetch
    let (high, c2) := c1.fetch
    some (c2.write ((high <<< 8) ||| low) c2.a)
  | 0x86 => -- STX zp
    let (address, c1) := c.fetch
    some (c1.write address c1.x)
  | 0x84 => -- STY zp
    let (address, c1) := c.fetch
    some (c1.write address c1.y)
  | 0xAA => -- TAX
    some { c with x := c.a, status := CPU.updateZN c.status c.a }
  | 0xA8 => -- TAY
    some { c with y := c.a, status := CPU.updateZN c.status c.a }
  | 0x8A => -- TXA
    some { c with a := c.x, status := CPU.updateZN c.status c.x }
  | 0x98 => -- TYA
    some { c with a := c.y, status := CPU.updateZN c.status c.y }
  | 0x69 => -- ADC imm
    let (value, c1) := c.fetch
    let carry := if CPU.get_flag c1.status FLAG_CARRY then 1 else 0
    let result := c1.a + value + carry
    let newA := result % 256
    let overflow := ((c1.a ^^^ newA) &&& (value ^^^ newA) &&& 0x80) ≠ 0
    let st := CPU.set_flag c1.status FLAG_CARRY (result > 0xFF)
    let st := CPU.set_flag st FLAG_OVERFLOW overflow
    some { c1 with a := newA, status := CPU.updateZN st newA }
  | 0xE9 => -- SBC imm
    let (value, c1) := c.fetch
    let carry := if CPU.get_flag c1.status FLAG_CARRY then 0 else 1
    let result : Int := (c1.a : Int) - value - carry
    let newA := (result % 256).toNat
    let overflow := ((c1.a ^^^ value) &&& (c1.a ^^^ newA) &&& 0x80) ≠ 0
    let st := CPU.set_flag c1.status FLAG_CARRY (0 ≤ result)
    let st := CPU.set_flag st FLAG_OVERFLOW overflow
    some { c1 with a := newA, status := CPU.updateZN st newA }
  | 0x29 => -- AND imm
    let (value, c1) := c.fetch
    let v := c1.a &&& value
    some { c1 with a := v, status := CPU.updateZN c1.status v }
  | 0x09 => -- ORA imm
    let (value, c1) := c.fetch
    let v := c1.a ||| value
    some { c1 with a := v, status := CPU.updateZN c1.status v }
  | 0x49 => -- EOR imm
    let (value, c1) := c.fetch
    let v := c1.a ^^^ value
    some { c1 with a := v, status := CPU.updateZN c1.status v }
  | 0xE6 => -- INC zp
    let (address, c1) := c.fetch
    let v := (c1.read address + 1) % 256
    let c2 := c1.write address v
    some { c2 with status := CPU.updateZN c2.status v }
  | 0xC6 => -- DEC zp
    let (address, c1) := c.fetch
    let v := (c1.read address + 255) % 256
    let c2 := c1.write address v
    some { c2 with status := CPU.updateZN c2.status v }
  | 0xE8 => -- INX
    let v := (c.x + 1) % 256
    some { c with x := v, status := CPU.updateZN c.status v }
  | 0xC8 => -- INY
    let v := (c.y + 1) % 256
    some { c with y := v, status := CPU.updateZN c.status v }
  | 0xCA => -- DEX
    let v := (c.x + 255) % 256
    some { c with x := v, status := CPU.updateZN c.status v }
  | 0x88 => -- DEY
    let v := (c.y + 255) % 256
    some { c with y := v, status := CPU.updateZN c.status v }
  | 0xC9 => -- CMP imm
    let (value, c1) := c.fetch
    let result := (c1.a + 256 - value) % 256
    let st := CPU.set_flag c1.status FLAG_CARRY (c1.a ≥ value)
    some { c1 with status := CPU.updateZN st result }
  | 0xE0 => -- CPX imm
    let (value, c1) := c.fetch
    let result := (c1.x + 256 - value) % 256
    let st := CPU.set_flag c1.status FLAG_CARRY (c1.x ≥ value)
    some { c1 with status := CPU.updateZN st result }
  | 0xC0 => -- CPY imm
    let (value, c1) := c.fetch
    let result := (c1.y + 256 - value) % 256
    let st := CPU.set_flag c1.status FLAG_CARRY (c1.y ≥ value)
    some { c1 with status := CPU.updateZN st result }
  | 0x4C => -- JMP abs
    let (low, c1) := c.fetch
    let (high, c2) := c1.fetch
    some { c2 with pc := (high <<< 8) ||| low }
  | 0x20 => -- JSR abs
    let (low, c1) := c.fetch
    let (high, c2) := c1.fetch
    -- `let return_address = cpu.pc - 1;` — u16 subtraction, panics at pc = 0
    if c2.pc = 0 then none
    else
      let ra := c2.pc - 1
      let c3 := c2.push ((ra >>> 8) % 256)
      let c4 := c3.push (ra % 256)
      some { c4 with pc := (high <<< 8) ||| low }
  | 0x60 => -- RTS
    let (low, c1) := c.pop
    let (high, c2) := c1.pop
    -- `cpu.pc = ((high << 8) | low) + 1;` — u16 addition, panics at 0xFFFF
    let v := (high <<< 8) ||| low
    if v + 1 > 0xFFFF then none
    else some { c2 with pc := v + 1 }
  | 0xF0 => -- BEQ
    let (offset, c1) := c.fetch
    if CPU.get_flag c1.status FLAG_ZERO then
      some { c1 with pc := branchTarget c1.pc offset }
    else some c1
  | 0xD0 => -- BNE
    let (offset, c1) := c.fetch
    if CPU.get_flag c1.status FLAG_ZERO then some c1
    else some { c1 with pc := branchTarget c1.pc offset }
  | 0xB0 => -- BCS
    let (offset, c1) := c.fetch
    if CPU.get_flag c1.status FLAG_CARRY then
      some { c1 with pc := branchTarget c1.pc offset }
    else some c1
  | 0x90 => -- BCC
    let (offset, c1) := c.fetch
    if CPU.get_flag c1.status FLAG_CARRY then some c1
    else some { c1 with pc := branchTarget c1.pc offset }
  | 0x30 => -- BMI
    let (offset, c1) := c.fetch
    if CPU.get_flag c1.status FLAG_NEGATIVE then
      some { c1 with pc := branchTarget c1.pc offset }
    else some c1
  | 0x10 => -- BPL
    let (offset, c1) := c.fetch
    if CPU.get_flag c1.status FLAG_NEGATIVE then some c1
    else some { c1 with pc := branchTarget c1.pc offset }
  | 0xEA => -- NOP
    some c
  | 0x00 => -- BRK: skip the padding byte and continue
    let (_, c1) := c.fetch
    some c1
  | 0xDE => -- DBG: fetches ONE byte as the address, prints value @ addr
    let (address, c1) := c.fetch
    let value := c1.read address
    some { c1 with dbgout := c1.dbgout ++ [(value, address)] }
  | 0x42 => -- SND: fetch packed byte, write it to 0xFC00 | payload
    let (sound_data, c1) := c.fetch
    let audio_address := 0xFC00 ||| (sound_data &&& 0xFF)
    some (c1.write audio_address sound_data)
  | 0xFF => -- HLT
    some { c with halted := true }
  | _ =>
    -- `println!("Unknown opcode: {:02X} at address {:04X}", opcode, cpu.pc - 1)`
    -- u16 subtraction in the diagnostic, panics at pc = 0; then halt.
    if c.pc = 0 then none
    else some { c with halted := true, unknown := c.unknown ++ [(opcode, c.pc - 1)] }

/-- `CPU::step`: early-return when halted, otherwise fetch the opcode,
execute, and bump the cycle counter.  The Rust return value is
`!halted` of the resulting state, so it carries no extra information. -/
def step (c : CPU) : Option CPU :=
  if c.halted then some c
  else
    let (opcode, c1) := c.fetch
    (execute c1 opcode).map fun c2 => { c2 with cycles := c2.cycles + 1 }

/-! ## Assembler (src/compiler.rs)

The `HashMap<String, u16>` label table is modelled as an association
list where insertion conses and lookup returns the first match (the
observable get/insert behaviour of the map).  `Vec<u8>` is a `List Nat`,
`Vec<(usize, String, usize)>` a `List (Nat × Str × Nat)`.  Errors are
the exact formatted strings as `Str`. -/

abbrev Labels := List (Str × Nat)

def labelsGet : Labels → Str → Option Nat
  | [], _ => none
  | (k, v) :: rest, key => if k = key then some v else labelsGet rest key

def labelsInsert (m : Labels) (k : Str) (v : Nat) : Labels := (k, v) :: m

/-- The pair of output buffers threaded through pass two: the emitted
bytes and the unresolved-reference list (position, label, width). -/
structure Asm where
  binary : List Nat
  unresolved : List (Nat × Str × Nat)

def Asm.pushByte (st : Asm) (b : Nat) : Asm :=
  { st with binary := st.binary ++ [b] }

/-- The repeated `if let Some(&address) = labels.get(name)` block of the
absolute-operand label paths: emit the little-endian address when the
label is known, otherwise record a width-2 unresolved reference at the
current emit position and emit two placeholder zeros. -/
def emitAbsOrUnresolved (st : Asm) (labels : Labels) (name : Str) : Asm :=
  match labelsGet labels name with
  | some address => (st.pushByte (address &&& 0xFF)).pushByte ((address >>> 8) % 256)
  | none =>
    let st1 : Asm := { st with unresolved := st.unresolved ++ [(st.binary.length, name, 2)] }
    (st1.pushByte 0).pushByte 0

/-- The width-1 variant used by the `label,Y` / `label,X` paths of
STX/STY: one low byte when known, otherwise a width-1 unresolved
reference and one placeholder zero. -/
def emitLowOrUnresolved (st : Asm) (labels : Labels) (name : Str) : Asm :=
  match labelsGet labels name with
  | some address => st.pushByte (address &&& 0xFF)
  | none =>
    let st1 : Asm := { st with unresolved := st.unresolved ++ [(st.binary.length, name, 1)] }
    st1.pushByte 0

/-- Model of `char::to_digit(radix)` as used by `from_str_radix`. -/
def digitVal (radix : Nat) (c : Char) : Option Nat :=
  let d : Option Nat :=
    if '0' ≤ c ∧ c ≤ '9' then some (c.toNat - 48)
    else if 'a' ≤ c ∧ c ≤ 'z' then some (c.toNat - 97 + 10)
    else if 'A' ≤ c ∧ c ≤ 'Z' then some (c.toNat - 65 + 10)
    else none
  match d with
  | some v => if v < radix then some v else none
  | none => none

def parseRadixAux (radix : Nat) : List Char → Nat → Option Nat
  | [], acc => some acc
  | c :: cs, acc =>
    match digitVal radix c with
    | none => none
    | some d => parseRadixAux radix cs (acc * radix + d)

/-- Model of `u16::from_str_radix`: an optional leading `+`, then a
nonempty digit string; overflow beyond u16::MAX is an error. -/
def parseRadix (radix : Nat) (s : Str) : Option Nat :=
  let digits := match s with
    | '+' :: rest => rest
    | _ => s
  if digits = [] then none
  else
    match parseRadixAux radix digits 0 with
    | none => none
    | some v => if v ≤ 0xFFFF then some v else none

def parse_value (value_str : Str) (line_num : Nat) : Except Str Nat :=
  if startsWithChar value_str '$' then
    match parseRadix 16 (value_str.drop 1) with
    | some v => .ok v
    | none => .error (str ("Line ") ++ natStr line_num ++
        str (": Invalid hexadecimal value: ") ++ value_str)
  else if startsWithChar value_str '%' then
    match parseRadix 2 (value_str.drop 1) with
    | some v => .ok v
    | none => .error (str ("Line ") ++ natStr line_num ++
        str (": Invalid binary value: ") ++ value_str)
  else
    match parseRadix 10 value_str with
    | some v => .ok v
    | none => .error (str ("Line ") ++ natStr line_num ++
        str (": Invalid decimal value: ") ++ value_str)

def parse_and_push_value (st : Asm) (value_str : Str) (num_bytes line_num : Nat) :
    Except Str Asm :=
  match parse_value value_str line_num with
  | .error e => .error e
  | .ok value =>
    if num_bytes = 1 then
      if value > 0xFF then
        .error (str ("Line ") ++ natStr line_num ++ str (": Value ") ++
          natStr value ++ str (" is too large for a single byte"))
      else .ok (st.pushByte (value &&& 0xFF))
    else .ok ((st.pushByte (value &&& 0xFF)).pushByte ((value >>> 8) % 256))

def get_instruction_size (instr operand : Str) : Nat :=
  let i := toUpperStr instr
  if ([str ("BEQ"), str ("BNE"), str ("BCS"), str ("BCC"), str ("BMI"),
      str ("BPL")] : List Str).contains i then 2
  else if ([str ("JMP"), str ("JSR")] : List Str).contains i then 3
  else if startsWithChar operand '#' then 2
  else if startsWithChar operand '(' && endsWithStr operand (str ("),Y")) then 2
  else if startsWithChar operand '(' && endsWithStr operand (str (",X)")) then 2
  else if operand.contains ',' then
    let addr_part := strTrim ((splitOnChar ',' operand).headD [])
    if startsWithChar addr_part '$' then
      if addr_part.length ≤ 3 then 2 else 3
    else 3
  else if startsWithChar operand '$' then
    if operand.length ≤ 3 then 2 else 3
  else 3

def compile_lda (st : Asm) (operand : Str) (labels : Labels) (line_num : Nat) :
    Except Str Asm :=
  if startsWithChar operand '#' then
    parse_and_push_value (st.pushByte 0xA9) (operand.drop 1) 1 line_num
  else if startsWithChar operand '(' && endsWithStr operand (str ("),Y")) then
    let addr_part := (operand.drop 1).take (operand.length - 4)
    parse_and_push_value (st.pushByte 0xB1) addr_part 1 line_num
  else if startsWithChar operand '(' && endsWithStr operand (str (",X)")) then
    let addr_part := (operand.drop 1).take (operand.length - 4)
    parse_and_push_value (st.pushByte 0xA1) addr_part 1 line_num
  else if operand.contains ',' then
    match splitOnChar ',' operand with
    | [p0, p1] =>
      let addr_part := strTrim p0
      let index_part := toUpperStr (strTrim p1)
      let pv : Except Str (Option Nat) :=
        if startsWithChar addr_part '$' then (parse_value addr_part line_num).map some
        else .ok none
      match pv with
      | .error e => .error e
      | .ok addr_value =>
        if index_part = str ("X") then
          match addr_value with
          | some addr =>
            if addr ≤ 0xFF then .ok ((st.pushByte 0xB5).pushByte (addr % 256))
            else parse_and_push_value (st.pushByte 0xBD) addr_part 2 line_num
          | none => .ok (emitAbsOrUnresolved (st.pushByte 0xBD) labels addr_part)
        else if index_part = str ("Y") then
          match addr_value with
          | some _ => parse_and_push_value (st.pushByte 0xB9) addr_part 2 line_num
          | none => .ok (emitAbsOrUnresolved (st.pushByte 0xB9) labels addr_part)
        else
          .error (str ("Line ") ++ natStr line_num ++
            str (": Invalid index register: ") ++ index_part)
    | _ =>
      .error (str ("Line ") ++ natStr line_num ++
        str (": Invalid indexed addressing format: ") ++ operand)
  else if startsWithChar operand '$' then
    match parse_value operand line_num with
    | .error e => .error e
    | .ok value =>
      if value ≤ 0xFF then .ok ((st.pushByte 0xA5).pushByte (value % 256))
      else .ok (((st.pushByte 0xAD).pushByte (value &&& 0xFF)).pushByte ((value >>> 8) % 256))
  else
    .ok (emitAbsOrUnresolved (st.pushByte 0xAD) labels operand)

def compile_ldx (st : Asm) (operand : Str) (labels : Labels) (line_num : Nat) :
    Except Str Asm :=
  if startsWithChar operand '#' then
    parse_and_push_value (st.pushByte 0xA2) (operand.drop 1) 1 line_num
  else if operand.contains ',' then
    match splitOnChar ',' operand with
    | [p0, p1] =>
      let addr_part := strTrim p0
      let index_part := toUpperStr (strTrim p1)
      if index_part ≠ str ("Y") then
        .error (str ("Line ") ++ natStr line_num ++
          str (": LDX only supports Y-indexed addressing, got: ") ++ index_part)
      else
        let pv : Except Str (Option Nat) :=
          if startsWithChar addr_part '$' then (parse_value addr_part line_num).map some
          else .ok none
        match pv with
        | .error e => .error e
        | .ok addr_value =>
          match addr_value with
          | some addr =>
            if addr ≤ 0xFF then .ok ((st.pushByte 0xB6).pushByte (addr % 256))
            else parse_and_push_value (st.pushByte 0xBE) addr_part 2 line_num
          | none => .ok (emitAbsOrUnresolved (st.pushByte 0xBE) labels addr_part)
    | _ =>
      .error (str ("Line ") ++ natStr line_num ++
        str (": Invalid indexed addressing format: ") ++ operand)
  else if startsWithChar operand '$' then
    match parse_value operand line_num with
    | .error e => .error e
    | .ok value =>
      if value ≤ 0xFF then .ok ((st.pushByte 0xA6).pushByte (value % 256))
      else .ok (((st.pushByte 0xAE).pushByte (value &&& 0xFF)).pushByte ((value >>> 8) % 256))
  else
    .ok (emitAbsOrUnresolved (st.pushByte 0xAE) labels operand)

def compile_ldy (st : Asm) (operand : Str) (labels : Labels) (line_num : Nat) :
    Except Str Asm :=
  if startsWithChar operand '#' then
    parse_and_push_value (st.pushByte 0xA0) (operand.drop 1) 1 line_num
  else if operand.contains ',' then
    match splitOnChar ',' operand with
    | [p0, p1] =>
      let addr_part := strTrim p0
      let index_part := toUpperStr (strTrim p1)
      if index_part ≠ str ("X") then
        .error (str ("Line ") ++ natStr line_num ++
          str (": LDY only supports X-indexed addressing, got: ") ++ index_part)
      else
        let pv : Except Str (Option Nat) :=
          if startsWithChar addr_part '$' then (parse_value addr_part line_num).map some
          else .ok none
        match pv with
        | .error e => .error e
        | .ok addr_value =>
          match addr_value with
          | some addr =>
            if addr ≤ 0xFF then .ok ((st.pushByte 0xB4).pushByte (addr % 256))
            else parse_and_push_value (st.pushByte 0xBC) addr_part 2 line_num
          | none => .ok (emitAbsOrUnresolved (st.pushByte 0xBC) labels addr_part)
    | _ =>
      .error (str ("Line ") ++ natStr line_num ++
        str (": Invalid indexed addressing format: ") ++ operand)
  else if startsWithChar operand '$' then
    match parse_value operand line_num with
    | .error e => .error e
    | .ok value =>
      if value ≤ 0xFF then .ok ((st.pushByte 0xA4).pushByte (value % 256))
      else .ok (((st.pushByte 0xAC).pushByte (value &&& 0xFF)).pushByte ((value >>> 8) % 256))
  else
    .ok (emitAbsOrUnresolved (st.pushByte 0xAC) labels operand)

/-- `compile_sta` receives the WHOLE token list of the line
(`let operand = tokens;` in the dispatcher), and then takes
`operands[0]` — the mnemonic itself — as the operand to encode. -/
def compile_sta (st : Asm) (operands : List Str) (labels : Labels) (line_num : Nat) :
    Except Str Asm :=
  let operand := strTrim ((splitOnChar ';' (operands.headD [])).headD [])
  if startsWithChar operand '#' then
    .error (str ("Line ") ++ natStr line_num ++
      str (": STA does not support immediate addressing"))
  else if startsWithChar operand '(' && endsWithStr operand (str (",X)")) then
    let addr_part := (operand.drop 1).take (operand.length - 4)
    parse_and_push_value (st.pushByte 0x81) addr_part 1 line_num
  else if startsWithChar operand '(' && endsWithStr operand (str ("),Y")) then
    let addr_part := (operand.drop 1).take (operand.length - 4)
    parse_and_push_value (st.pushByte 0x91) addr_part 1 line_num
  else if operand.contains ',' then
    match ((splitPred (fun ch => ch = ',' || ch = ' ') operand).map strTrim).filter
        (fun t => t ≠ []) with
    | [addr_part, rawIndex] =>
      let index_part := toUpperStr rawIndex
      let pv : Except Str (Option Nat) :=
        if startsWithChar addr_part '$' then (parse_value addr_part line_num).map some
        else .ok none
      match pv with
      | .error e => .error e
      | .ok addr_value =>
        if index_part = str ("X") then
          match addr_value with
          | some addr =>
            if addr ≤ 0xFF then .ok ((st.pushByte 0x95).pushByte (addr % 256))
            else parse_and_push_value (st.pushByte 0x9D) addr_part 2 line_num
          | none => .ok (emitAbsOrUnresolved (st.pushByte 0x9D) labels addr_part)
        else if index_part = str ("Y") then
          -- STA zero page,Y does not exist; absolute,Y is emitted for any value
          let st1 := st.pushByte 0x99
          match addr_value with
          | some addr =>
            .ok ((st1.pushByte (addr &&& 0xFF)).pushByte ((addr >>> 8) % 256))
          | none => .ok (emitAbsOrUnresolved st1 labels addr_part)
        else
          .error (str ("Line ") ++ natStr line_num ++
            str (": Invalid index register: ") ++ index_part)
    | _ =>
      .error (str ("Line ") ++ natStr line_num ++
        str (": Invalid indexed addressing format: ") ++ operand)
  else if startsWithChar operand '$' then
    match parse_value operand line_num with
    | .error e => .error e
    | .ok value =>
      if value ≤ 0xFF then .ok ((st.pushByte 0x85).pushByte (value % 256))
      else .ok (((st.pushByte 0x8D).pushByte (value &&& 0xFF)).pushByte ((value >>> 8) % 256))
  else
    .ok (emitAbsOrUnresolved (st.pushByte 0x8D) labels operand)

def compile_stx (st : Asm) (operand : Str) (labels : Labels) (line_num : Nat) :
    Except Str Asm :=
  if startsWithChar operand '#' then
    .error (str ("Line ") ++ natStr line_num ++
      str (": STX does not support immediate addressing"))
  else if operand.contains ',' then
    match splitOnChar ',' operand with
    | [p0, p1] =>
      let addr_part := strTrim p0
      let index_part := toUpperStr (strTrim p1)
      if index_part ≠ str ("Y") then
        .error (str ("Line ") ++ natStr line_num ++
          str (": STX only supports Y-indexed addressing"))
      else
        let pv : Except Str (Option Nat) :=
          if startsWithChar addr_part '$' then (parse_value addr_part line_num).map some
          else .ok none
        match pv with
        | .error e => .error e
        | .ok addr_value =>
          match addr_value with
          | some addr =>
            if addr ≤ 0xFF then .ok ((st.pushByte 0x96).pushByte (addr % 256))
            else
              .error (str ("Line ") ++ natStr line_num ++
                str (": STX does not support absolute,Y addressing"))
          | none => .ok (emitLowOrUnresolved (st.pushByte 0x96) labels addr_part)
    | _ =>
      .error (str ("Line ") ++ natStr line_num ++
        str (": Invalid indexed addressing format: ") ++ operand)
  else if startsWithChar operand '$' then
    match parse_value operand line_num with
    | .error e => .error e
    | .ok value =>
      if value ≤ 0xFF then .ok ((st.pushByte 0x86).pushByte (value % 256))
      else .ok (((st.pushByte 0x8E).pushByte (value &&& 0xFF)).pushByte ((value >>> 8) % 256))
  else
    .ok (emitAbsOrUnresolved (st.pushByte 0x8E) labels operand)

def compile_sty (st : Asm) (operand : Str) (labels : Labels) (line_num : Nat) :
    Except Str Asm :=
  if startsWithChar operand '#' then
    .error (str ("Line ") ++ natStr line_num ++
      str (": STY does not support immediate addressing"))
  else if operand.contains ',' then
    match splitOnChar ',' operand with
    | [p0, p1] =>
      let addr_part := strTrim p0
      let index_part := toUpperStr (strTrim p1)
      if index_part ≠ str ("X") then
        .error (str ("Line ") ++ natStr line_num ++
          str (": STY only supports X-indexed addressing"))
      else
        let pv : Except Str (Option Nat) :=
          if startsWithChar addr_part '$' then (parse_value addr_part line_num).map some
          else .ok none
        match pv with
        | .error e => .error e
        | .ok addr_value =>
          match addr_value with
          | some addr =>
            if addr ≤ 0xFF then .ok ((st.pushByte 0x94).pushByte (addr % 256))
            else
              .error (str ("Line ") ++ natStr line_num ++
                str (": STY does not support absolute,X addressing"))
          | none => .ok (emitLowOrUnresolved (st.pushByte 0x94) labels addr_part)
    | _ =>
      .error (str ("Line ") ++ natStr line_num ++
        str (": Invalid indexed addressing format: ") ++ operand)
  else if startsWithChar operand '$' then
    match parse_value operand line_num with
    | .error e => .error e
    | .ok value =>
      if value ≤ 0xFF then .ok ((st.pushByte 0x84).pushByte (value % 256))
      else .ok (((st.pushByte 0x8C).pushByte (value &&& 0xFF)).pushByte ((value >>> 8) % 256))
  else
    .ok (emitAbsOrUnresolved (st.pushByte 0x8C) labels operand)

/-- Shared body of `compile_adc` / `compile_sbc` / `compile_and` /
`compile_ora` / `compile_eor` / `compile_cmp`, which are textually
identical in the source except for the eight opcodes
(imm, (ind,X), (ind),Y, zp,X, abs,X, abs,Y, zp, abs); the `(…,X)` check
precedes the `(…),Y` check in all six. -/
def compile_alu (st : Asm) (operand : Str) (labels : Labels) (line_num : Nat)
    (imm indX indY zpX absX absY zp abs : Nat) : Except Str Asm :=
  if startsWithChar operand '#' then
    parse_and_push_value (st.pushByte imm) (operand.drop 1) 1 line_num
  else if startsWithChar operand '(' && endsWithStr operand (str (",X)")) then
    let addr_part := (operand.drop 1).take (operand.length - 4)
    parse_and_push_value (st.pushByte indX) addr_part 1 line_num
  else if startsWithChar operand '(' && endsWithStr operand (str ("),Y")) then
    let addr_part := (operand.drop 1).take (operand.length - 4)
    parse_and_push_value (st.pushByte indY) addr_part 1 line_num
  else if operand.contains ',' then
    match splitOnChar ',' operand with
    | [p0, p1] =>
      let addr_part := strTrim p0
      let index_part := toUpperStr (strTrim p1)
      let pv : Except Str (Option Nat) :=
        if startsWithChar addr_part '$' then (parse_value addr_part line_num).map some
        else .ok none
      match pv with
      | .error e => .error e
      | .ok addr_value =>
        if index_part = str ("X") then
          match addr_value with
          | some addr =>
            if addr ≤ 0xFF then .ok ((st.pushByte zpX).pushByte (addr % 256))
            else parse_and_push_value (st.pushByte absX) addr_part 2 line_num
          | none => .ok (emitAbsOrUnresolved (st.pushByte absX) labels addr_part)
        else if index_part = str ("Y") then
          match addr_value with
          | some _ => parse_and_push_value (st.pushByte absY) addr_part 2 line_num
          | none => .ok (emitAbsOrUnresolved (st.pushByte absY) labels addr_part)
        else
          .error (str ("Line ") ++ natStr line_num ++
            str (": Invalid index register: ") ++ index_part)
    | _ =>
      .error (str ("Line ") ++ natStr line_num ++
        str (": Invalid indexed addressing format: ") ++ operand)
  else if startsWithChar operand '$' then
    match parse_value operand line_num with
    | .error e => .error e
    | .ok value =>
      if value ≤ 0xFF then .ok ((st.pushByte zp).pushByte (value % 256))
      else .ok (((st.pushByte abs).pushByte (value &&& 0xFF)).pushByte ((value >>> 8) % 256))
  else
    .ok (emitAbsOrUnresolved (st.pushByte abs) labels operand)

def compile_adc (st : Asm) (operand : Str) (labels : Labels) (line_num : Nat) :
    Except Str Asm :=
  compile_alu st operand labels line_num 0x69 0x61 0x71 0x75 0x7D 0x79 0x65 0x6D

def compile_sbc (st : Asm) (operand : Str) (labels : Labels) (line_num : Nat) :
    Except Str Asm :=
  compile_alu st operand labels line_num 0xE9 0xE1 0xF1 0xF5 0xFD 0xF9 0xE5 0xED

def compile_and (st : Asm) (operand : Str) (labels : Labels) (line_num : Nat) :
    Except Str Asm :=
  compile_alu st operand labels line_num 0x29 0x21 0x31 0x35 0x3D 0x39 0x25 0x2D

def compile_ora (st : Asm) (operand : Str) (labels : Labels) (line_num : Nat) :
    Except Str Asm :=
  compile_alu st operand labels line_num 0x09 0x01 0x11 0x15 0x1D 0x19 0x05 0x0D

def compile_eor (st : Asm) (operand : Str) (labels : Labels) (line_num : Nat) :
    Except Str Asm :=
  compile_alu st operand labels line_num 0x49 0x41 0x51 0x55 0x5D 0x59 0x45 0x4D

def compile_cmp (st : Asm) (operand : Str) (labels : Labels) (line_num : Nat) :
    Except Str Asm :=
  compile_alu st operand labels line_num 0xC9 0xC1 0xD1 0xD5 0xDD 0xD9 0xC5 0xCD

/-- Shared body of `compile_inc` / `compile_dec` (identical in the
source except for mnemonic name in the messages and the four opcodes:
zp,X, abs,X, zp, abs; immediate is rejected and only X indexing is
allowed). -/
def compile_incdec (st : Asm) (operand : Str) (labels : Labels) (line_num : Nat)
    (mn : Str) (zpX absX zp abs : Nat) : Except Str Asm :=
  if startsWithChar operand '#' then
    .error (str ("Line ") ++ natStr line_num ++ str (": ") ++ mn ++
      str (" does not support immediate addressing"))
  else if operand.contains ',' then
    match splitOnChar ',' operand with
    | [p0, p1] =>
      let addr_part := strTrim p0
      let index_part := toUpperStr (strTrim p1)
      if index_part ≠ str ("X") then
        .error (str ("Line ") ++ natStr line_num ++ str (": ") ++ mn ++
          str (" only supports X-indexed addressing"))
      else
        let pv : Except Str (Option Nat) :=
          if startsWithChar addr_part '$' then (parse_value addr_part line_num).map some
          else .ok none
        match pv with
        | .error e => .error e
        | .ok addr_value =>
          match addr_value with
          | some addr =>
            if addr ≤ 0xFF then .ok ((st.pushByte zpX).pushByte (addr % 256))
            else parse_and_push_value (st.pushByte absX) addr_part 2 line_num
          | none => .ok (emitAbsOrUnresolved (st.pushByte absX) labels addr_part)
    | _ =>
      .error (str ("Line ") ++ natStr line_num ++
        str (": Invalid indexed addressing format: ") ++ operand)
  else if startsWithChar operand '$' then
    match parse_value operand line_num with
    | .error e => .error e
    | .ok value =>
      if value ≤ 0xFF then .ok ((st.pushByte zp).pushByte (value % 256))
      else .ok (((st.pushByte abs).pushByte (value &&& 0xFF)).pushByte ((value >>> 8) % 256))
  else
    .ok (emitAbsOrUnresolved (st.pushByte abs) labels operand)

def compile_inc (st : Asm) (operand : Str) (labels : Labels) (line_num : Nat) :
    Except Str Asm :=
  compile_incdec st operand labels line_num (str ("INC")) 0xF6 0xFE 0xE6 0xEE

def compile_dec (st : Asm) (operand : Str) (labels : Labels) (line_num : Nat) :
    Except Str Asm :=
  compile_incdec st operand labels line_num (str ("DEC")) 0xD6 0xDE 0xC6 0xCE

/-- Shared body of `compile_cpx` / `compile_cpy`: immediate, zero page
or absolute only — an operand with a comma falls through to the label
(absolute) path, as in the source. -/
def compile_cpxy (st : Asm) (operand : Str) (labels : Labels) (line_num : Nat)
    (imm zp abs : Nat) : Except Str Asm :=
  if startsWithChar operand '#' then
    parse_and_push_value (st.pushByte imm) (operand.drop 1) 1 line_num
  else if startsWithChar operand '$' then
    match parse_value operand line_num with
    | .error e => .error e
    | .ok value =>
      if value ≤ 0xFF then .ok ((st.pushByte zp).pushByte (value % 256))
      else .ok (((st.pushByte abs).pushByte (value &&& 0xFF)).pushByte ((value >>> 8) % 256))
  else
    .ok (emitAbsOrUnresolved (st.pushByte abs) labels operand)

def compile_cpx (st : Asm) (operand : Str) (labels : Labels) (line_num : Nat) :
    Except Str Asm :=
  compile_cpxy st operand labels line_num 0xE0 0xE4 0xEC

def compile_cpy (st : Asm) (operand : Str) (labels : Labels) (line_num : Nat) :
    Except Str Asm :=
  compile_cpxy st operand labels line_num 0xC0 0xC4 0xCC

/-- `compile_dbg`: for values ≤ 0xFF it pushes only the value byte (no
opcode at all); otherwise it pushes 0xAC followed by the little-endian
address.  It never emits the CPU's DBG opcode 0xDE. -/
def compile_dbg (st : Asm) (operand : Str) (line_num : Nat) : Except Str Asm :=
  match parse_value operand line_num with
  | .error e => .error e
  | .ok value =>
    if value ≤ 0xFF then .ok (st.pushByte (value % 256))
    else .ok (((st.pushByte 0xAC).pushByte (value &&& 0xFF)).pushByte ((value >>> 8) % 256))

def missingOperand (line_num : Nat) (what : Str) : Str :=
  str ("Line ") ++ natStr line_num ++ str (": Missing operand for ") ++ what

def impliedMnemonics : List Str :=
  [str ("NOP"), str ("TAX"), str ("TAY"), str ("TXA"), str ("TYA"),
   str ("INX"), str ("INY"), str ("DEX"), str ("DEY"), str ("RTS"),
   str ("BRK"), str ("HLT")]

def operandMnemonics : List Str :=
  [str ("LDA"), str ("LDX"), str ("LDY"), str ("STA"), str ("STX"),
   str ("STY"), str ("ADC"), str ("SBC"), str ("AND"), str ("ORA"),
   str ("EOR"), str ("INC"), str ("DEC"), str ("CMP"), str ("CPX"),
   str ("CPY"), str ("BEQ"), str ("BNE"), str ("BCS"), str ("BCC"),
   str ("BMI"), str ("BPL"), str ("DBG"), str ("SND")]

/-- Pass one: collect labels, advancing the running address by the
encoded size of each instruction line. -/
def pass1 : List (Nat × Str) → Nat → Labels → Except Str Labels
  | [], _, labels => .ok labels
  | (line_num, rawLine) :: rest, current_address, labels =>
    let line := strTrim rawLine
    if line = [] ∨ startsWithChar line ';' then pass1 rest current_address labels
    else if endsWithChar line ':' then
      pass1 rest current_address (labelsInsert labels (strTrim line.dropLast) current_address)
    else if startsWithChar line '.' then pass1 rest current_address labels
    else
      match splitWhitespace line with
      | [] => pass1 rest current_address labels
      | t0 :: trest =>
        let up := toUpperStr t0
        if impliedMnemonics.contains up then
          pass1 rest (current_address + 1) labels
        else if operandMnemonics.contains up then
          match trest with
          | [] => .error (missingOperand line_num (str ("instruction: ") ++ line))
          | op :: _ => pass1 rest (current_address + get_instruction_size t0 op) labels
        else if up = str ("JMP") ∨ up = str ("JSR") then
          match trest with
          | [] => .error (missingOperand line_num (str ("instruction: ") ++ line))
          | _ => pass1 rest (current_address + 3) labels
        else
          .error (str ("Line ") ++ natStr line_num ++
            str (": Unknown instruction: ") ++ t0)

/-- One pass-two instruction line (the body of the big `match` of the
second loop).  `st` holds the bytes emitted so far. -/
def pass2Line (st : Asm) (current_address : Nat) (labels : Labels)
    (line_num : Nat) (t0 : Str) (trest : List Str) : Except Str Asm :=
  let instruction := toUpperStr t0
  if instruction = str ("NOP") then .ok (st.pushByte 0xEA)
  else if instruction = str ("BRK") then .ok (st.pushByte 0x00)
  else if instruction = str ("HLT") then .ok (st.pushByte 0xFF)
  else if instruction = str ("TAX") then .ok (st.pushByte 0xAA)
  else if instruction = str ("TAY") then .ok (st.pushByte 0xA8)
  else if instruction = str ("TXA") then .ok (st.pushByte 0x8A)
  else if instruction = str ("TYA") then .ok (st.pushByte 0x98)
  else if instruction = str ("INX") then .ok (st.pushByte 0xE8)
  else if instruction = str ("INY") then .ok (st.pushByte 0xC8)
  else if instruction = str ("DEX") then .ok (st.pushByte 0xCA)
  else if instruction = str ("DEY") then .ok (st.pushByte 0x88)
  else if instruction = str ("RTS") then .ok (st.pushByte 0x60)
  else if instruction = str ("LDA") then
    match trest with
    | [] => .error (missingOperand line_num (str ("LDA")))
    | op :: _ => compile_lda st op labels line_num
  else if instruction = str ("LDX") then
    match trest with
    | [] => .error (missingOperand line_num (str ("LDX")))
    | op :: _ => compile_ldx st op labels line_num
  else if instruction = str ("LDY") then
    match trest with
    | [] => .error (missingOperand line_num (str ("LDY")))
    | op :: _ => compile_ldy st op labels line_num
  else if instruction = str ("STA") then
    match trest with
    | [] => .error (missingOperand line_num (str ("STA")))
    | _ =>
      -- `let operand = tokens;` — the dispatcher hands compile_sta the
      -- whole token list, mnemonic included.
      compile_sta st (t0 :: trest) labels line_num
  else if instruction = str ("STX") then
    match trest with
    | [] => .error (missingOperand line_num (str ("STX")))
    | op :: _ => compile_stx st op labels line_num
  else if instruction = str ("STY") then
    match trest with
    | [] => .error (missingOperand line_num (str ("STY")))
    | op :: _ => compile_sty st op labels line_num
  else if instruction = str ("ADC") then
    match trest with
    | [] => .error (missingOperand line_num (str ("ADC")))
    | op :: _ => compile_adc st op labels line_num
  else if instruction = str ("SBC") then
    match trest with
    | [] => .error (missingOperand line_num (str ("SBC")))
    | op :: _ => compile_sbc st op labels line_num
  else if instruction = str ("AND") then
    match trest with
    | [] => .error (missingOperand line_num (str ("AND")))
    | op :: _ => compile_and st op labels line_num
  else if instruction = str ("ORA") then
    match trest with
    | [] => .error (missingOperand line_num (str ("ORA")))
    | op :: _ => compile_ora st op labels line_num
  else if instruction = str ("EOR") then
    match trest with
    | [] => .error (missingOperand line_num (str ("EOR")))
    | op :: _ => compile_eor st op labels line_num
  else if instruction = str ("INC") then
    match trest with
    | [] => .error (missingOperand line_num (str ("INC")))
    | op :: _ => compile_inc st op labels line_num
  else if instruction = str ("DEC") then
    match trest with
    | [] => .error (missingOperand line_num (str ("DEC")))
    | op :: _ => compile_dec st op labels line_num
  else if instruction = str ("CMP") then
    match trest with
    | [] => .error (missingOperand line_num (str ("CMP")))
    | op :: _ => compile_cmp st op labels line_num
  else if instruction = str ("CPX") then
    match trest with
    | [] => .error (missingOperand line_num (str ("CPX")))
    | op :: _ => compile_cpx st op labels line_num
  else if instruction = str ("CPY") then
    match trest with
    | [] => .error (missingOperand line_num (str ("CPY")))
    | op :: _ => compile_cpy st op labels line_num
  else if instruction = str ("JMP") then
    match trest with
    | [] => .error (missingOperand line_num (str ("JMP")))
    | op :: _ =>
      let st1 := st.pushByte 0x4C
      if startsWithChar op '$' then parse_and_push_value st1 op 2 line_num
      else .ok (emitAbsOrUnresolved st1 labels op)
  else if instruction = str ("JSR") then
    match trest with
    | [] => .error (missingOperand line_num (str ("JSR")))
    | op :: _ =>
      let st1 := st.pushByte 0x20
      if startsWithChar op '$' then parse_and_push_value st1 op 2 line_num
      else .ok (emitAbsOrUnresolved st1 labels op)
  else if ([str ("BEQ"), str ("BNE"), str ("BCS"), str ("BCC"), str ("BMI"),
      str ("BPL")] : List Str).contains instruction then
    match trest with
    | [] => .error (missingOperand line_num (str ("branch instruction")))
    | op :: _ =>
      let opcode : Nat :=
        if instruction = str ("BEQ") then 0xF0
        else if instruction = str ("BNE") then 0xD0
        else if instruction = str ("BCS") then 0xB0
        else if instruction = str ("BCC") then 0x90
        else if instruction = str ("BMI") then 0x30
        else 0x10
      let st1 := st.pushByte opcode
      if startsWithChar op '$' then
        match parse_value op line_num with
        | .error e => .error e
        | .ok target =>
          -- `(target as i32 - (current_address + 2) as i32) as i8`,
          -- then pushed `as u8`: the two's-complement low byte, with no
          -- range check.
          .ok (st1.pushByte ((((target : Int) - ((current_address : Int) + 2)) % 256).toNat))
      else
        match labelsGet labels op with
        | some address =>
          .ok (st1.pushByte ((((address : Int) - ((current_address : Int) + 2)) % 256).toNat))
        | none =>
          let st2 : Asm :=
            { st1 with unresolved := st1.unresolved ++ [(st1.binary.length, op, 1)] }
          .ok (st2.pushByte 0)
  else if instruction = str ("DBG") then
    match trest with
    | [] => .error (missingOperand line_num (str ("DBG")))
    | op :: _ => compile_dbg st op line_num
  else if instruction = str ("SND") then
    match trest with
    | [] => .error (missingOperand line_num (str ("SND")))
    | op :: _ => parse_and_push_value (st.pushByte 0x42) op 1 line_num
  else
    .error (str ("Line ") ++ natStr line_num ++
      str (": Unknown instruction: ") ++ instruction)

/-- Pass two: emit bytes line by line.  After each instruction line the
source executes `current_address += binary.len() as u16` — adding the
TOTAL number of bytes emitted so far instead of the instruction's own
length (the address-tracking defect called out in the spec). -/
def pass2 : List (Nat × Str) → Asm → Nat → Labels → Except Str Asm
  | [], st, _, _ => .ok st
  | (line_num, rawLine) :: rest, st, current_address, labels =>
    let line := strTrim rawLine
    if line = [] ∨ startsWithChar line ';' ∨ endsWithChar line ':' ∨
        startsWithChar line '.' then
      pass2 rest st current_address labels
    else
      match splitWhitespace line with
      | [] => pass2 rest st current_address labels
      | t0 :: trest =>
        match pass2Line st current_address labels line_num t0 trest with
        | .error e => .error e
        | .ok st1 =>
          pass2 rest st1 (current_address + (st1.binary.length % 65536)) labels

/-- Post-pass resolution of the unresolved-reference list. -/
def resolve : List (Nat × Str × Nat) → List Nat → Labels → Except Str (List Nat)
  | [], bin, _ => .ok bin
  | (position, label, size) :: rest, bin, labels =>
    match labelsGet labels label with
    | none => .error (str ("Undefined label: ") ++ label)
    | some address =>
      if size = 1 then
        -- `let target_address = position as u16 + 1;`
        let target_address := (position % 65536) + 1
        let offset := (((address : Int) - (target_address : Int)) % 256).toNat
        resolve rest (bin.set position offset) labels
      else
        resolve rest
          ((bin.set position (address &&& 0xFF)).set (position + 1) ((address >>> 8) % 256))
          labels

/-- `compile`: pass one (labels), pass two (bytes), then resolution. -/
def compile (source : Str) : Except Str (List Nat) :=
  match pass1 (numberLines 1 (linesOf source)) 0 [] with
  | .error e => .error e
  | .ok labels =>
    match pass2 (numberLines 1 (linesOf source)) ⟨[], []⟩ 0 labels with
    | .error e => .error e
    | .ok st => resolve st.unresolved st.binary labels

/-! ## Operation sequences over Memory (for the display-mirror invariant) -/

/-- The mutating Memory operations (`read` does not change state). -/
inductive MemOp where
  | write (address value : Nat)
  | load (program : List Nat)

def applyOp (m : Memory) : MemOp → Memory
  | .write a v => m.write a v
  | .load p => m.load_program p

def applyOps (m : Memory) : List MemOp → Memory
  | [] => m
  | op :: rest => applyOps (applyOp m op) rest

/-- The display mirror matches the display region of the main store. -/
def MemOk (m : Memory) : Prop :=
  ∀ i, i < DISPLAY_SIZE → m.display_buffer i = m.data (DISPLAY_START + i)

/-! ## Concrete states used by the claim theorems -/

/-- The assembler emits 0xBD for `LDA $1234,X`; this is that program in
memory. -/
def cpuLdaAbsX : CPU := CPU.new (Memory.load_program Memory.new [0xBD, 0x34, 0x12])

def cpuLdaAbsX1 : CPU := (step cpuLdaAbsX).getD cpuLdaAbsX

/-- The bytes `DE 34 12` (DBG followed by a little-endian absolute
address, the spec's canonical encoding) loaded at 0. -/
def cpuDbg : CPU := CPU.new (Memory.load_program Memory.new [0xDE, 0x34, 0x12])

def cpuDbg1 : CPU := (step cpuDbg).getD cpuDbg

/-- About to execute RTS with return-address bytes FF FF on the stack:
the handler computes 0xFFFF + 1 in u16. -/
def cpuRtsOverflow : CPU :=
  { CPU.new (((Memory.load_program Memory.new [0x60]).write 0x01FE 0xFF).write
      0x01FF 0xFF) with
    sp := 0xFD }

/-- JSR opcode at 0xFFFD: after the three fetches PC has wrapped to 0,
and the handler computes 0 - 1 in u16. -/
def cpuJsrUnderflow : CPU :=
  { CPU.new (Memory.write Memory.new 0xFFFD 0x20) with pc := 0xFFFD }

/-- Unknown opcode 0x02 at 0xFFFF: PC wraps to 0 and the diagnostic
computes 0 - 1 in u16. -/
def cpuUnknownAtTop : CPU :=
  { CPU.new (Memory.write Memory.new 0xFFFF 0x02) with pc := 0xFFFF }

/-- `JSR $0004; HLT; RTS` — the JSR/RTS round trip program. -/
def cpuJsr0 : CPU := CPU.new (Memory.load_program Memory.new [0x20, 0x04, 0x00, 0xFF, 0x60])

def cpuJsr1 : CPU := (step cpuJsr0).getD cpuJsr0

def cpuJsr2 : CPU := (step cpuJsr1).getD cpuJsr1

/-- The assembled `SND $C3` program loaded at 0. -/
def cpuSnd0 : CPU := CPU.new (Memory.load_program Memory.new [0x42, 0xC3])

def cpuSnd1 : CPU := (step cpuSnd0).getD cpuSnd0

/-! ## Helper lemmas -/

theorem lor_high_low (h l : Nat) (hl : l < 256) : (h <<< 8) ||| l = 256 * h + l := by
  apply Nat.eq_of_testBit_eq
  intro i
  rw [Nat.testBit_lor, Nat.testBit_shiftLeft]
  have h2 : (256 : Nat) * h + l = 2 ^ 8 * h + l := by norm_num
  have hl2 : l < 2 ^ 8 := by norm_num at hl ⊢; exact hl
  rw [h2, Nat.testBit_mul_pow_two_add h hl2 i]
  by_cases hi : i < 8
  · have hlt : ¬ (i ≥ 8) := by omega
    simp [hi, hlt]
  · have hge : i ≥ 8 := by omega
    have hfalse : l.testBit i = false := by
      apply Nat.testBit_lt_two_pow
      calc l < 2 ^ 8 := hl2
        _ ≤ 2 ^ i := Nat.pow_le_pow_right (by norm_num) hge
    simp [hi, hge, hfalse]

set_option maxRecDepth 4000 in
theorem lor_0x0100 : ∀ s, s < 256 → 0x0100 ||| s = 0x0100 + s := by decide

set_option maxRecDepth 4000 in
theorem lor_0xFC00 : ∀ p, p < 256 → 0xFC00 ||| p = 0xFC00 + p := by decide

set_option maxRecDepth 4000 in
theorem land_0xFF : ∀ p, p < 256 → p &&& 0xFF = p := by decide

theorem Memory.read_write (m : Memory) (a v b : Nat) :
    (m.write a v).read b =
      if b % 65536 = a % 65536 then v % 256 else m.read b := by
  by_cases hb : b % 65536 = a % 65536 <;>
    simp [Memory.write, Memory.read, hb]

theorem Memory.read_lt (m : Memory) (a : Nat) : m.read a < 256 :=
  Nat.mod_lt _ (by norm_num)

/-- One step from an un-halted state whose PC points at the JSR opcode
0x20, written out explicitly (the guard is the `cpu.pc - 1` underflow
check). -/
theorem step_jsr_eq (a x y pc sp status : Nat) (mem : Memory) (cycles : Nat)
    (dbgout unknown : List (Nat × Nat)) (hop : mem.read pc = 0x20) :
    step ⟨a, x, y, pc, sp, status, mem, cycles, false, dbgout, unknown⟩ =
      (if (((pc + 1) % 65536 + 1) % 65536 + 1) % 65536 = 0 then none
       else
        some (⟨a, x, y,
          (mem.read (((pc + 1) % 65536 + 1) % 65536) <<< 8) ||| mem.read ((pc + 1) % 65536),
          ((sp + 255) % 256 + 255) % 256, status,
          (mem.write (0x0100 ||| sp)
              ((((((pc + 1) % 65536 + 1) % 65536 + 1) % 65536 - 1) >>> 8) % 256)).write
            (0x0100 ||| ((sp + 255) % 256))
            (((((pc + 1) % 65536 + 1) % 65536 + 1) % 65536 - 1) % 256),
          cycles, false, dbgout, unknown⟩ : CPU)).map
        (fun c2 => { c2 with cycles := c2.cycles + 1 }) := by
  have h0 : step ⟨a, x, y, pc, sp, status, mem, cycles, false, dbgout, unknown⟩ =
      (execute ⟨a, x, y, (pc + 1) % 65536, sp, status, mem, cycles, false, dbgout, unknown⟩
        (mem.read pc)).map (fun c2 => { c2 with cycles := c2.cycles + 1 }) := rfl
  rw [h0, hop]
  rfl

/-- One step from an un-halted state whose PC points at the RTS opcode
0x60, written out explicitly (the guard is the `((high << 8) | low) + 1`
overflow check). -/
theorem step_rts_eq (a x y pc sp status : Nat) (mem : Memory) (cycles : Nat)
    (dbgout unknown : List (Nat × Nat)) (hop : mem.read pc = 0x60) :
    step ⟨a, x, y, pc, sp, status, mem, cycles, false, dbgout, unknown⟩ =
      (if ((mem.read (0x0100 ||| (((sp + 1) % 256 + 1) % 256)) <<< 8) |||
            mem.read (0x0100 ||| ((sp + 1) % 256))) + 1 > 0xFFFF then none
       else
        some (⟨a, x, y,
          ((mem.read (0x0100 ||| (((sp + 1) % 256 + 1) % 256)) <<< 8) |||
            mem.read (0x0100 ||| ((sp + 1) % 256))) + 1,
          ((sp + 1) % 256 + 1) % 256, status, mem,
          cycles, false, dbgout, unknown⟩ : CPU)).map
        (fun c2 => { c2 with cycles := c2.cycles + 1 }) := by
  have h0 : step ⟨a, x, y, pc, sp, status, mem, cycles, false, dbgout, unknown⟩ =
      (execute ⟨a, x, y, (pc + 1) % 65536, sp, status, mem, cycles, false, dbgout, unknown⟩
        (mem.read pc)).map (fun c2 => { c2 with cycles := c2.cycles + 1 }) := rfl
  rw [h0, hop]
  rfl

/-- One step from an un-halted state whose PC points at the SND opcode
0x42, written out explicitly (SND never panics). -/
theorem step_snd_eq (a x y pc sp status : Nat) (mem : Memory) (cycles : Nat)
    (dbgout unknown : List (Nat × Nat)) (hop : mem.read pc = 0x42) :
    step ⟨a, x, y, pc, sp, status, mem, cycles, false, dbgout, unknown⟩ =
      some (⟨a, x, y, ((pc + 1) % 65536 + 1) % 65536, sp, status,
        mem.write (0xFC00 ||| (mem.read ((pc + 1) % 65536) &&& 0xFF))
          (mem.read ((pc + 1) % 65536)),
        cycles + 1, false, dbgout, unknown⟩ : CPU) := by
  have h0 : step ⟨a, x, y, pc, sp, status, mem, cycles, false, dbgout, unknown⟩ =
      (execute ⟨a, x, y, (pc + 1) % 65536, sp, status, mem, cycles, false, dbgout, unknown⟩
        (mem.read pc)).map (fun c2 => { c2 with cycles := c2.cycles + 1 }) := rfl
  rw [h0, hop]
  rfl

theorem memOk_new : MemOk Memory.new := fun _ _ => rfl

theorem memOk_write (m : Memory) (a v : Nat) (h : MemOk m) : MemOk (m.write a v) := by
  intro i hi
  simp only [Memory.write, DISPLAY_START, DISPLAY_SIZE] at *
  by_cases hreg : 0xF000 ≤ a % 65536 ∧ a % 65536 < 0xF000 + 0x0C00
  · simp only [hreg, if_pos]
    by_cases hix : i = a % 65536 - 0xF000
    · have hx : 0xF000 + i = a % 65536 := by omega
      simp [hix, hx]
      rw [if_pos (by omega)]
    · have hx : ¬ (0xF000 + i = a % 65536) := by omega
      simp [hix, hx]
      exact h i hi
  · simp only [hreg, if_neg, if_false]
    have hx : ¬ (0xF000 + i = a % 65536) := by omega
    simp [hx]
    exact h i hi

theorem memOk_load_from (p : List Nat) : ∀ (m : Memory) (i : Nat),
    MemOk m → MemOk (Memory.load_from m i p) := by
  induction p with
  | nil => intro m i h; exact h
  | cons b rest ih =>
    intro m i h
    simp only [Memory.load_from, ROM_SIZE]
    by_cases hrom : i < 0x8000
    · simp only [hrom, if_pos]
      apply ih
      intro j hj
      have hx : ¬ (DISPLAY_START + j = i) := by
        simp only [DISPLAY_START]; omega
      simp [hx]
      exact h j hj
    · simp only [hrom, if_neg, if_false]
      exact h

theorem memOk_load (m : Memory) (p : List Nat) (h : MemOk m) :
    MemOk (m.load_program p) :=
  memOk_load_from p m 0 h

theorem memOk_applyOps (ops : List MemOp) : ∀ (m : Memory),
    MemOk m → MemOk (applyOps m ops) := by
  induction ops with
  | nil => intro m h; exact h
  | cons op rest ih =>
    intro m h
    apply ih
    cases op with
    | write a v => exact memOk_write m a v h
    | load p => exact memOk_load m p h

theorem swap_read_of_memOk (m : Memory) (h : MemOk m) (a : Nat) :
    (m.swap_display_buffer).read a = m.read a := by
  simp only [Memory.swap_display_buffer, Memory.read, DISPLAY_START, DISPLAY_SIZE]
  by_cases hreg : 0xF000 ≤ a % 65536 ∧ a % 65536 < 0xF000 + 0x0C00
  · simp only [hreg, if_pos]
    have hlt : a % 65536 - 0xF000 < 0x0C00 := by omega
    have hb := h (a % 65536 - 0xF000) hlt
    simp only [DISPLAY_START] at hb
    rw [hb]
    have hx : 0xF000 + (a % 65536 - 0xF000) = a % 65536 := by omega
    rw [hx]
    simp
  · simp [hreg]

/-! ## Claim theorems -/

/-- C1: the claim says assembling `LDA #$42\nSTA $80\nHLT\n` succeeds
with bytes A9 42 85 80 FF.  In the code, the STA dispatch passes the
whole token list to `compile_sta`, which uses `operands[0]` — the
mnemonic "STA" itself — as the operand; it is treated as a label
reference and assembly fails with `Undefined label: STA`. -/
theorem sta_operand_slip_scenario :
    compile (str ("LDA #$42\nSTA $80\nHLT\n")) =
      .error (str ("Undefined label: STA")) := rfl

/-- C2: the claim says every opcode of the ISA table — in particular
every opcode the assembler can emit — is dispatched by `execute`.  The
assembler emits 0xBD for `LDA $1234,X`, but `execute` has no arm for
0xBD: running the assembled program takes the unknown-opcode branch,
logging (0xBD, 0) and halting with A unchanged. -/
theorem isa_decoder_misses_assembler_opcode :
    compile (str ("LDA $1234,X\n")) = .ok [0xBD, 0x34, 0x12] ∧
    step cpuLdaAbsX = some cpuLdaAbsX1 ∧
    cpuLdaAbsX1.halted = true ∧
    cpuLdaAbsX1.unknown = [(0xBD, 0)] ∧
    cpuLdaAbsX1.a = 0 := ⟨rfl, rfl, rfl, rfl, rfl⟩

/-- C3: the claim says `LDX #$03\nloop: DEX\nBNE loop\nHLT\n` assembles
to A2 03 CA D0 FD FF.  In the code (1) a label sharing a line with an
instruction is not recognised — pass one fails with
`Line 2: Unknown instruction: loop:` — and (2) even with the label on
its own line, pass two advances `current_address` by the TOTAL emitted
size, so the backward branch encodes 0xFB instead of 0xFD. -/
theorem label_line_and_branch_address_bug :
    compile (str ("LDX #$03\nloop: DEX\nBNE loop\nHLT\n")) =
      .error (str ("Line 2: Unknown instruction: loop:")) ∧
    compile (str ("LDX #$03\nloop:\nDEX\nBNE loop\nHLT\n")) =
      .ok [0xA2, 0x03, 0xCA, 0xD0, 0xFB, 0xFF] := ⟨rfl, rfl⟩

/-- C4: the claim says DBG with an absolute operand is encoded as 0xDE
plus a 2-byte little-endian address and that the DBG handler fetches a
16-bit address.  In the code, `compile_dbg` emits 0xAC (not 0xDE) for
absolute operands and just the bare value byte for small ones, and the
0xDE handler fetches a single byte: executing DE 34 12 reports address
0x34 (value 0) and leaves PC at 2, not 3. -/
theorem dbg_encoding_decoding_mismatch :
    compile (str ("DBG $1234\n")) = .ok [0xAC, 0x34, 0x12] ∧
    compile (str ("DBG $42\n")) = .ok [0x42] ∧
    step cpuDbg = some cpuDbg1 ∧
    cpuDbg1.dbgout = [(0, 0x34)] ∧
    cpuDbg1.pc = 2 := ⟨rfl, rfl, rfl, rfl, rfl⟩

/-- C5: the claim says a branch displacement outside [−128, 127] is an
error.  `BNE $90` at address 0 has displacement 0x90 − 2 = +142, yet
the code assembles successfully, silently truncating the i32 to an i8
and emitting the byte 0x8E. -/
theorem branch_range_not_checked :
    compile (str ("BNE $90\n")) = .ok [0xD0, 0x8E] := rfl

/-- C6: the claim says zero page versus absolute is chosen strictly by
the textual form, so `LDA $00FF` uses the absolute opcode 0xAD.  Pass
two of the code chooses by numeric value (`value <= 0xFF`), so
`LDA $00FF` and `LDA $FF` both collapse to A5 FF — while pass one's
`get_instruction_size` sizes `LDA $00FF` textually as 3 bytes,
contradicting the 2 bytes actually emitted. -/
theorem zp_abs_chosen_by_value :
    compile (str ("LDA $00FF\n")) = .ok [0xA5, 0xFF] ∧
    compile (str ("LDA $FF\n")) = .ok [0xA5, 0xFF] ∧
    get_instruction_size (str ("LDA")) (str ("$00FF")) = 3 := ⟨rfl, rfl, rfl⟩

/-- C7: the claim says `step` returns normally for every CPU state and
memory contents.  The unchecked u16 arithmetic aborts (debug-profile
overflow panic, modelled as `none`) in three reachable situations: RTS
popping return-address bytes FF FF computes 0xFFFF + 1; JSR fetched at
0xFFFD wraps PC to 0 and computes 0 − 1; an unknown opcode fetched at
0xFFFF wraps PC to 0 and its diagnostic computes 0 − 1. -/
theorem step_aborts_on_unchecked_u16_arith :
    step cpuRtsOverflow = none ∧ step cpuJsrUnderflow = none ∧
    step cpuUnknownAtTop = none := ⟨rfl, rfl, rfl⟩

set_option maxRecDepth 8000 in
/-- C8: a JSR abs that completes from an un-halted state with SP < 256,
followed later by an RTS executed with SP back at the post-JSR value
and the two pushed stack bytes unchanged, restores SP to its pre-JSR
value and sets PC to the pre-JSR PC plus 3 (mod 2^16) — the address of
the instruction after the JSR. -/
theorem jsr_rts_balance
    (s0 s1 s2 s3 : CPU)
    (hhalt : s0.halted = false)
    (hsp : s0.sp < 256)
    (hpc : s0.pc < 65536)
    (hop : s0.mem.read s0.pc = 0x20)
    (h1 : step s0 = some s1)
    (hhalt2 : s2.halted = false)
    (hsp2 : s2.sp = s1.sp)
    (hop2 : s2.mem.read s2.pc = 0x60)
    (hb1 : s2.mem.read (0x0100 ||| ((s0.sp + 255) % 256)) =
           s1.mem.read (0x0100 ||| ((s0.sp + 255) % 256)))
    (hb2 : s2.mem.read (0x0100 ||| s0.sp) = s1.mem.read (0x0100 ||| s0.sp))
    (h3 : step s2 = some s3) :
    s3.sp = s0.sp ∧ s3.pc = (s0.pc + 3) % 65536 := by
  obtain ⟨a0, x0, y0, pc0, sp0, st0, m0, cy0, hl0, d0, u0⟩ := s0
  obtain ⟨a2, x2, y2, pc2, sp2, st2, m2, cy2, hl2, d2, u2⟩ := s2
  simp only at hhalt hsp hpc hop h1 hhalt2 hsp2 hop2 hb1 hb2 h3 ⊢
  subst hhalt
  subst hhalt2
  rw [step_jsr_eq a0 x0 y0 pc0 sp0 st0 m0 cy0 d0 u0 hop] at h1
  by_cases hz : (((pc0 + 1) % 65536 + 1) % 65536 + 1) % 65536 = 0
  case pos => rw [if_pos hz] at h1; simp at h1
  case neg =>
  rw [if_neg hz] at h1
  simp only [Option.map_some', Option.some.injEq] at h1
  subst h1
  simp only at hsp2 hb1 hb2
  subst hsp2
  rw [step_rts_eq a2 x2 y2 pc2 ((((sp0 + 255) % 256 + 255) % 256)) st2 m2 cy2 d2 u2 hop2]
    at h3
  set ra := (((pc0 + 1) % 65536 + 1) % 65536 + 1) % 65536 - 1 with hradef
  have e1 : ((((sp0 + 255) % 256 + 255) % 256) + 1) % 256 = (sp0 + 255) % 256 := by omega
  rw [e1] at h3
  have e2 : ((sp0 + 255) % 256 + 1) % 256 = sp0 := by omega
  rw [e2] at h3
  have hm : (sp0 + 255) % 256 < 256 := Nat.mod_lt _ (by norm_num)
  have hA1 : (0x0100 ||| sp0) = 256 + sp0 := lor_0x0100 sp0 hsp
  have hA2 : (0x0100 ||| ((sp0 + 255) % 256)) = 256 + (sp0 + 255) % 256 :=
    lor_0x0100 _ hm
  rw [hA1, hA2] at hb1 hb2 h3
  rw [Memory.read_write, if_pos rfl] at hb1
  have hc1 : ¬ ((256 + sp0) % 65536 = (256 + (sp0 + 255) % 256) % 65536) := by omega
  rw [Memory.read_write, if_neg hc1, Memory.read_write, if_pos rfl] at hb2
  have hra_lt : ra < 65536 := by omega
  have hlow : m2.read (256 + (sp0 + 255) % 256) = ra % 256 := by
    rw [hb1]; omega
  have hhigh : m2.read (256 + sp0) = ra / 256 := by
    rw [hb2, Nat.shiftRight_eq_div_pow]
    have h8 : (2 : Nat) ^ 8 = 256 := by norm_num
    rw [h8]
    omega
  rw [hlow, hhigh] at h3
  rw [lor_high_low (ra / 256) (ra % 256) (by omega)] at h3
  have hcond : ¬ (256 * (ra / 256) + ra % 256 + 1 > 0xFFFF) := by omega
  rw [if_neg hcond] at h3
  simp only [Option.map_some', Option.some.injEq] at h3
  subst h3
  constructor
  · rfl
  · show 256 * (ra / 256) + ra % 256 + 1 = (pc0 + 3) % 65536
    omega

/-- C8 witness: the program `JSR $0004; HLT; RTS` run for two steps
(the JSR, then immediately the RTS) ends with SP restored to 0xFF and
PC = 3, the address of the HLT after the JSR. -/
theorem jsr_rts_balance_witness :
    cpuJsr2.sp = cpuJsr0.sp ∧ cpuJsr2.pc = (cpuJsr0.pc + 3) % 65536 :=
  jsr_rts_balance cpuJsr0 cpuJsr1 cpuJsr1 cpuJsr2
    rfl (by decide) (by decide) rfl rfl rfl rfl rfl rfl rfl rfl

/-- C9: `SND $C3` assembles to 42 C3; executing the SND opcode with any
payload byte p writes p to address 0xFC00 | p; running the assembled
program one step leaves memory[0xFCC3] = 0xC3. -/
theorem snd_encode_and_write :
    compile (str ("SND $C3\n")) = .ok [0x42, 0xC3] ∧
    (∀ (p : Nat) (s : CPU), s.halted = false →
      s.mem.read s.pc = 0x42 → s.mem.read ((s.pc + 1) % 65536) = p →
      ∃ s1, step s = some s1 ∧ s1.mem.read (0xFC00 ||| p) = p) ∧
    step cpuSnd0 = some cpuSnd1 ∧ cpuSnd1.mem.read 0xFCC3 = 0xC3 := by
  refine ⟨rfl, ?_, rfl, rfl⟩
  intro p s h1 h2 h3
  obtain ⟨a, x, y, pc, sp, st, mem, cy, hl, d, u⟩ := s
  simp only at h1 h2 h3
  subst h1
  refine ⟨_, step_snd_eq a x y pc sp st mem cy d u h2, ?_⟩
  simp only
  have hp : p < 256 := by rw [← h3]; exact Memory.read_lt mem _
  rw [h3, land_0xFF p hp]
  rw [Memory.read_write, if_pos rfl]
  omega

/-- C9 witness: the general SND property applied to the loaded
`SND $C3` program with payload 0xC3. -/
theorem snd_encode_and_write_witness :
    step cpuSnd0 = some cpuSnd1 ∧ cpuSnd1.mem.read (0xFC00 ||| 0xC3) = 0xC3 := by
  obtain ⟨t, ht, hr⟩ := snd_encode_and_write.2.1 0xC3 cpuSnd0 rfl rfl rfl
  have ht2 : step cpuSnd0 = some cpuSnd1 := rfl
  rw [ht2] at ht
  injection ht with ht3
  subst ht3
  exact ⟨rfl, hr⟩

/-- C10: after any sequence of write / load_program operations starting
from Memory.new, the display mirror equals the display region of the
main store (writes keep the mirror in sync and load_program never
touches the display region), so swap_display_buffer changes no
observable memory byte. -/
theorem display_mirror_and_swap_noop (ops : List MemOp) :
    (∀ i, i < 3072 → (applyOps Memory.new ops).display_buffer i =
        (applyOps Memory.new ops).data (0xF000 + i)) ∧
    (∀ a, ((applyOps Memory.new ops).swap_display_buffer).read a =
        (applyOps Memory.new ops).read a) := by
  have h : MemOk (applyOps Memory.new ops) := memOk_applyOps ops Memory.new memOk_new
  constructor
  · intro i hi
    exact h i hi
  · intro a
    exact swap_read_of_memOk _ h a

/-- C10 witness: one display write, checked at its own cell and through
a swap. -/
theorem display_mirror_and_swap_noop_witness :
    (applyOps Memory.new [MemOp.write 0xF123 7]).display_buffer 0x123 =
      (applyOps Memory.new [MemOp.write 0xF123 7]).data (0xF000 + 0x123) ∧
    ((applyOps Memory.new [MemOp.write 0xF123 7]).swap_display_buffer).read 0xF123 =
      (applyOps Memory.new [MemOp.write 0xF123 7]).read 0xF123 :=
  ⟨(display_mirror_and_swap_noop [MemOp.write 0xF123 7]).1 0x123 (by decide),
   (display_mirror_and_swap_noop [MemOp.write 0xF123 7]).2 0xF123⟩

end Helios
